import Mathlib

/-!
# Supply-Chain Procurement Dashboard — verification of the metrics pipeline

Shallow embedding of `src/SCM.py` (a pandas/Streamlit dashboard).

Modelling conventions:
* A pandas DataFrame row becomes a `Record`; a DataFrame becomes a
  `List Record` (ordered, as pandas rows are).
* A cell that pandas represents as `NaN`/`NaT` is `Option.none`; date
  cells are `Option Int` (whole days on a common epoch), so that the
  timedelta `.dt.days` of two parseable dates is plain integer
  subtraction, and any arithmetic or comparison touching `NaT`
  (which is falsy in pandas comparisons) is handled explicitly.
* Monetary amounts and quantities are `Int` (the claims under study
  only need exact arithmetic on them).
* The division producing the on-time rate is rational; pandas yields
  `inf`/`NaN` (never an exception and never `0`) when the denominator
  is `0`, which we embed as `Option.none`.
-/

namespace SCM

/-- One procurement-order line (one DataFrame row). Field order follows
the required-columns list of `SCM.py` line 27 plus `Supplier`. -/
structure Record where
  salesOrderNo : Option String
  customerName : Option String
  supplier : Option String
  poNumber : Option String
  poTotalAmount : Int
  invoiceAmount : Int
  quantity : Int
  receivedQuantity : Int
  poDate : Option Int
  estimatedDeliveryDate : Option Int
  deliveryDate : Option Int
  deriving Repr, DecidableEq

/-- The user's sidebar selections (`st.sidebar.multiselect`, lines 50-52).
An empty list is an empty multiselect, i.e. no restriction. -/
structure FilterSpec where
  salesOrders : List String
  customers : List String
  suppliers : List String
  deriving Repr, DecidableEq

/-- `isPrefixL pat s`: `pat` is a prefix of `s` (on character lists). -/
def isPrefixL : List Char → List Char → Bool
  | [], _ => true
  | _ :: _, [] => false
  | a :: as, b :: bs => a == b && isPrefixL as bs

/-- `containsSub pat s`: `pat` occurs as a contiguous substring of `s`
(case-sensitive), as Python's `in` / pandas `str.contains` (no regex
metacharacters occur in the needle used by the code). -/
def containsSub (pat : List Char) : List Char → Bool
  | [] => isPrefixL pat []
  | s@(_ :: rest) => isPrefixL pat s || containsSub pat rest

/-- `df['Sales Order No'].str.contains('Summary', na=False)` on one cell:
`NaN` counts as not containing (`na=False`). -/
def cellContainsSummary : Option String → Bool
  | none => false
  | some s => containsSub "Summary".toList s.toList

/-- Required columns (`SCM.py` line 27). -/
def required_columns : List String :=
  ["Sales Order No", "Customer Name", "PO Number", "PO Total Amount (EGP)",
   "Invoice Amount", "Delivery Date", "PO Date", "Estimated Delivery Date",
   "Quantity", "Received Quantity"]

/-- `missing_columns = [col for col in required_columns if col not in df.columns]`
(`SCM.py` line 28). -/
def missing_columns (cols : List String) : List String :=
  required_columns.filter (fun c => !cols.contains c)

/-- Normalizer (`SCM.py` lines 33-37): drop rows whose `Sales Order No`
contains `"Summary"`, then drop rows whose `Sales Order No` is null.
(The date-parsing step, lines 40-43, is represented by the `Option Int`
date fields of `Record`: a cell that failed `pd.to_datetime(..., errors=
\x27coerce\x27)` is already `none`, and the step leaves rows untouched.) -/
def normalize (t : List Record) : List Record :=
  (t.filter (fun r => !cellContainsSummary r.salesOrderNo)).filter
    (fun r => r.salesOrderNo.isSome)

/-- One cell's membership test for `Series.isin(values)`: a `NaN` cell is
never a member of a list of strings. -/
def optMem (o : Option String) (l : List String) : Bool :=
  match o with
  | none => false
  | some v => l.contains v

/-- Filter Engine (`SCM.py` lines 55-62): apply each `.isin` restriction
only when the corresponding multiselect is non-empty. -/
def filtered_df (spec : FilterSpec) (t : List Record) : List Record :=
  let t1 := if spec.salesOrders.isEmpty then t
    else t.filter (fun r => optMem r.salesOrderNo spec.salesOrders)
  let t2 := if spec.customers.isEmpty then t1
    else t1.filter (fun r => optMem r.customerName spec.customers)
  if spec.suppliers.isEmpty then t2
  else t2.filter (fun r => optMem r.supplier spec.suppliers)

/-- One row's delayed-shipment test (`SCM.py` line 74):
`(row['Estimated Delivery Date'] - row['Delivery Date']).days > threshold`.
If either date is `NaT` the timedelta is `NaT`, whose `.days` is `NaN`,
and `NaN > threshold` is `False` in pandas. -/
def isDelayed (threshold : Int) (r : Record) : Bool :=
  match r.estimatedDeliveryDate, r.deliveryDate with
  | some e, some d => decide (e - d > threshold)
  | _, _ => false

/-- Delayed-shipments subset (`SCM.py` lines 73-75). -/
def delayed_shipments (threshold : Int) (t : List Record) : List Record :=
  t.filter (isDelayed threshold)

/-- Critical-delay warning (`SCM.py` lines 81-82):
`if len(delayed_shipments) > 5: st.warning(...)`. -/
def criticalAlert (threshold : Int) (t : List Record) : Bool :=
  decide ((delayed_shipments threshold t).length > 5)

/-- The distinct non-null keys of `df.groupby(k)` in order of first
occurrence, for a string-valued key selector. (pandas sorts group keys;
every claim under study is order-insensitive, so first-occurrence order
is used.) -/
def groupKeys (key : Record → Option String) (t : List Record) : List String :=
  (t.filterMap key).dedup

/-- The rows of group `v` of `df.groupby(k)`: rows whose key cell equals
`v` (a `NaN` key belongs to no group). -/
def groupRows (key : Record → Option String) (v : String)
    (t : List Record) : List Record :=
  t.filter (fun r => key r == some v)

/-- `total_orders=("PO Number", "nunique")` for one supplier group
(`SCM.py` line 89): the number of distinct non-null PO numbers. -/
def total_orders (t : List Record) (s : String) : Nat :=
  (((groupRows Record.supplier s t).filterMap Record.poNumber).dedup).length

/-- `total_procurement=("PO Total Amount (EGP)", "sum")` (`SCM.py` line 90). -/
def total_procurement (t : List Record) (s : String) : Int :=
  ((groupRows Record.supplier s t).map Record.poTotalAmount).sum

/-- One row's on-time test (`SCM.py` line 91): `Delivery Date <=
Estimated Delivery Date`; a comparison involving `NaT` is `False`. -/
def isOnTime (r : Record) : Bool :=
  match r.deliveryDate, r.estimatedDeliveryDate with
  | some d, some e => decide (d ≤ e)
  | _, _ => false

/-- One row's late test (`SCM.py` line 92): `Delivery Date >
Estimated Delivery Date`; a comparison involving `NaT` is `False`. -/
def isLate (r : Record) : Bool :=
  match r.deliveryDate, r.estimatedDeliveryDate with
  | some d, some e => decide (d > e)
  | _, _ => false

/-- `on_time_deliveries` for one supplier group (`SCM.py` line 91). -/
def on_time_deliveries (t : List Record) (s : String) : Nat :=
  ((groupRows Record.supplier s t).filter isOnTime).length

/-- `delayed_deliveries` for one supplier group (`SCM.py` line 92). -/
def delayed_deliveries (t : List Record) (s : String) : Nat :=
  ((groupRows Record.supplier s t).filter isLate).length

/-- `On-Time Delivery Rate (%)` (`SCM.py` line 95):
`on_time_deliveries / total_orders * 100`. When `total_orders = 0`
pandas produces `NaN` (for `0/0`) or `inf` (for `n/0`) — a non-numeric
rate, embedded as `none`; otherwise the exact rational percentage. -/
def onTimeRate (t : List Record) (s : String) : Option ℚ :=
  if total_orders t s = 0 then none
  else some ((on_time_deliveries t s : ℚ) / (total_orders t s : ℚ) * 100)

/-- One output row of the `groupby("PO Number")` aggregation
(`SCM.py` lines 117-123), including the added `Difference` column. -/
structure ReconRow where
  poNumber : String
  total_quantity : Int
  total_received : Int
  difference : Int
  deriving Repr, DecidableEq

/-- `total_quantity=("Quantity", "sum")` for one PO group (`SCM.py` line 118). -/
def total_quantity (t : List Record) (po : String) : Int :=
  ((groupRows Record.poNumber po t).map Record.quantity).sum

/-- `total_received=("Received Quantity", "sum")` for one PO group
(`SCM.py` line 119). -/
def total_received (t : List Record) (po : String) : Int :=
  ((groupRows Record.poNumber po t).map Record.receivedQuantity).sum

/-- `receipts_vs_quantity` (`SCM.py` lines 117-123): one row per distinct
PO number, with the `Difference` column `total_quantity - total_received`. -/
def receipts_vs_quantity (t : List Record) : List ReconRow :=
  (groupKeys Record.poNumber t).map (fun po =>
    ⟨po, total_quantity t po, total_received t po,
      total_quantity t po - total_received t po⟩)

/-- `mismatches = receipts_vs_quantity[receipts_vs_quantity["Difference"] != 0]`
(`SCM.py` line 129). -/
def mismatches (t : List Record) : List ReconRow :=
  (receipts_vs_quantity t).filter (fun row => row.difference != 0)

/-- The guarded reconciliation sub-computation (`SCM.py` lines 115-133):
run only if `PO Number`, `Quantity` and `Received Quantity` are all among
the columns, otherwise report the dedicated error message
(`st.error`, line 133) and skip the aggregation. -/
def reconciliation (cols : List String) (t : List Record) :
    Except String (List ReconRow × List ReconRow) :=
  if (["PO Number", "Quantity", "Received Quantity"].all
      (fun c => cols.contains c)) then
    Except.ok (receipts_vs_quantity t, mismatches t)
  else
    Except.error "The required columns for Receipts vs. Invoice Comparison are missing."

/-- `top_suppliers = supplier_performance["total_procurement"].nlargest(5)`
(`SCM.py` line 104): the 5 largest per-supplier procurement totals,
descending; `nlargest` keeps the first occurrence on ties (stable). -/
def top_suppliers (t : List Record) : List (String × Int) :=
  (((groupKeys Record.supplier t).map
      (fun s => (s, total_procurement t s))).mergeSort
    (fun p q => p.2 ≥ q.2)).take 5

/-- `top_customers` (`SCM.py` line 108): per-customer sums of
`PO Total Amount (EGP)`, 5 largest, descending, stable on ties. -/
def top_customers (t : List Record) : List (String × Int) :=
  (((groupKeys Record.customerName t).map (fun c =>
      (c, ((groupRows Record.customerName c t).map
        Record.poTotalAmount).sum))).mergeSort
    (fun p q => p.2 ≥ q.2)).take 5

/-- `len(filtered_df["Sales Order No"].unique())` (`SCM.py` line 142):
`Series.unique` keeps a `NaN` as a value, so distinct cells are counted,
null included at most once. -/
def totalSalesOrders (t : List Record) : Nat :=
  ((t.map Record.salesOrderNo).dedup).length

/-- `filtered_df['PO Total Amount (EGP)'].sum()` (`SCM.py` line 144). -/
def totalPOAmount (t : List Record) : Int :=
  (t.map Record.poTotalAmount).sum

/-- `len(filtered_df[filtered_df['Delivery Date'] > filtered_df['Estimated
Delivery Date']])` (`SCM.py` line 146); `NaT` comparisons are `False`. -/
def delayed_count (t : List Record) : Nat :=
  (t.filter isLate).length

/-- The Metrics Aggregator's results over one filtered table (`SCM.py`
lines 68-147): every sub-computation except reconciliation depends only
on the filtered table (and the slider threshold); reconciliation also
consults the column list through its guard. -/
structure Metrics where
  delayed : List Record
  alert : Bool
  supplierKeys : List String
  topSuppliers : List (String × Int)
  topCustomers : List (String × Int)
  recon : Except String (List ReconRow × List ReconRow)
  salesOrderCount : Nat
  poAmountSum : Int
  lateCount : Nat
  deriving Repr

/-- Run the Metrics Aggregator (`SCM.py` lines 68-147) on a filtered
table with the given column list and delay threshold. -/
def metricsAggregator (cols : List String) (threshold : Int)
    (t : List Record) : Metrics :=
  { delayed := delayed_shipments threshold t
    alert := criticalAlert threshold t
    supplierKeys := groupKeys Record.supplier t
    topSuppliers := top_suppliers t
    topCustomers := top_customers t
    recon := reconciliation cols t
    salesOrderCount := totalSalesOrders t
    poAmountSum := totalPOAmount t
    lateCount := delayed_count t }

/-- `df.columns.str.strip()` on one column name (`SCM.py` line 24):
drop leading and trailing whitespace. (Defined on the character list so
that it evaluates by kernel reduction.) -/
def strip (s : String) : String :=
  ⟨((s.toList.dropWhile Char.isWhitespace).reverse.dropWhile
      Char.isWhitespace).reverse⟩

/-- The result of a successful pipeline run. -/
structure Output where
  normalized : List Record
  filtered : List Record
  metrics : Metrics
  deriving Repr

/-- The whole per-interaction pipeline (`SCM.py` lines 24-147): trim the
column names, check the required columns, and either halt with the
missing ones (`st.error`, line 31 — nothing further runs) or normalize,
filter and aggregate. -/
def pipeline (cols : List String) (spec : FilterSpec) (threshold : Int)
    (t : List Record) : Except (List String) Output :=
  let cols2 := cols.map strip
  let mc := missing_columns cols2
  if mc.isEmpty then
    let n := normalize t
    let f := filtered_df spec n
    Except.ok ⟨n, f, metricsAggregator cols2 threshold f⟩
  else
    Except.error mc

/-! ## Test fixtures

Concrete rows used by witnesses and counterexamples. `mkRec` fills the
fields the scenarios never vary (`invoiceAmount`, `poDate`). -/

/-- Build a `Record` with fixed invoice amount `0` and no PO date. -/
def mkRec (so cu su po : Option String) (amt q rcv : Int)
    (ed dd : Option Int) : Record :=
  ⟨so, cu, su, po, amt, 0, q, rcv, none, ed, dd⟩

/-- Supplier `"S"`: two rows on one PO, both delivered on time. -/
def tRepeatPO : List Record :=
  [mkRec (some "SO1") (some "C") (some "S") (some "P1") 100 1 1 (some 10) (some 5),
   mkRec (some "SO2") (some "C") (some "S") (some "P1") 200 1 1 (some 10) (some 7)]

/-- Supplier `"S"`: one row whose PO number is null. -/
def tNullPO : List Record :=
  [mkRec (some "SO1") (some "C") (some "S") none 100 1 1 (some 10) (some 5)]

/-- Delay scenario rows: estimated − actual of 15 days and of 5 days. -/
def rDelay15 : Record :=
  mkRec (some "SO1") (some "C") (some "S") (some "P1") 100 1 1 (some 15) (some 0)

/-- See `rDelay15`. -/
def rDelay5 : Record :=
  mkRec (some "SO2") (some "C") (some "S") (some "P2") 100 1 1 (some 5) (some 0)

/-- A two-row table holding the two delay-scenario rows. -/
def tDelay : List Record := [rDelay15, rDelay5]

/-- A row kept by the Normalizer, and a table with two rows it drops. -/
def rKept : Record :=
  mkRec (some "SO1") (some "C") (some "S") (some "P1") 100 1 1 none none

/-- Table with one kept row, one `"Summary"` footer row, one null-id row. -/
def tNorm : List Record :=
  [rKept,
   mkRec (some "Grand Summary") none none none 0 0 0 none none,
   mkRec none (some "C") (some "S") (some "P2") 50 1 1 none none]

/-- PO `"X1"`: line rows (quantity 10, received 10) and (5, received 3). -/
def tPO : List Record :=
  [mkRec (some "SO1") (some "C") (some "S") (some "X1") 100 10 10 none none,
   mkRec (some "SO2") (some "C") (some "S") (some "X1") 100 5 3 none none]

/-- Six rows each 20 days early against a 10-day threshold. -/
def tSix : List Record :=
  (List.range 6).map (fun i =>
    mkRec (some ("SO" ++ toString i)) (some "C") (some "S") (some "P") 1 1 1
      (some 20) (some 0))

/-- Five rows each 20 days early against a 10-day threshold. -/
def tFive : List Record := tSix.take 5

/-! ## Helper lemmas -/

/-- The composite row predicate the Filter Engine amounts to: each
multiselect either is empty or accepts the row's cell. -/
def filterPred (spec : FilterSpec) (r : Record) : Bool :=
  (spec.salesOrders.isEmpty || optMem r.salesOrderNo spec.salesOrders) &&
  ((spec.customers.isEmpty || optMem r.customerName spec.customers) &&
   (spec.suppliers.isEmpty || optMem r.supplier spec.suppliers))

lemma filtered_df_eq_filter (spec : FilterSpec) (t : List Record) :
    filtered_df spec t = t.filter (filterPred spec) := by
  unfold filtered_df filterPred
  cases h1 : spec.salesOrders.isEmpty <;>
    cases h2 : spec.customers.isEmpty <;>
    cases h3 : spec.suppliers.isEmpty <;>
    simp [h1, h2, h3, List.filter_filter] <;>
    · apply List.filter_congr
      intro a _
      cases hA : optMem a.salesOrderNo spec.salesOrders <;>
        cases hB : optMem a.customerName spec.customers <;>
        cases hC : optMem a.supplier spec.suppliers <;>
        simp [hA, hB, hC]

/-! ## Claims -/

/-- C4: applying the Filter Engine with an empty FilterSpec (no accepted
values for order identifier, customer name, or supplier name) returns the
input table unchanged. -/
theorem C4_empty_spec_is_identity (spec : FilterSpec) (t : List Record)
    (h1 : spec.salesOrders = []) (h2 : spec.customers = [])
    (h3 : spec.suppliers = []) :
    filtered_df spec t = t := by
  unfold filtered_df
  simp [h1, h2, h3]

/-- Witness for C4 at a concrete table and the empty FilterSpec. -/
theorem C4_empty_spec_is_identity_witness :
    filtered_df ⟨[], [], []⟩ tDelay = tDelay :=
  C4_empty_spec_is_identity ⟨[], [], []⟩ tDelay rfl rfl rfl

/-- C5: the Filter Engine is idempotent — filtering an already-filtered
table again with the same FilterSpec returns an identical result. -/
theorem C5_idempotent (spec : FilterSpec) (t : List Record) :
    filtered_df spec (filtered_df spec t) = filtered_df spec t := by
  rw [filtered_df_eq_filter, filtered_df_eq_filter, List.filter_filter]
  apply List.filter_congr
  intro a _
  cases filterPred spec a <;> rfl

/-- C10: the Filter Engine's output is an order-preserving subsequence of
its input — every output record occurs in the input, no occurrence is
duplicated, and relative order is preserved. -/
theorem C10_output_sublist (spec : FilterSpec) (t : List Record) :
    List.Sublist (filtered_df spec t) t := by
  rw [filtered_df_eq_filter]
  exact List.filter_sublist t

/-- C3: the Normalizer's output contains no record whose order identifier
is absent and none whose order identifier contains the case-sensitive
substring `"Summary"`. -/
theorem C3_normalize_invariant (t : List Record) (r : Record)
    (h : r ∈ normalize t) :
    r.salesOrderNo.isSome = true ∧
      cellContainsSummary r.salesOrderNo = false := by
  unfold normalize at h
  rw [List.mem_filter] at h
  obtain ⟨h1, hSome⟩ := h
  rw [List.mem_filter] at h1
  exact ⟨hSome, by simpa using h1.2⟩

/-- Witness for C3: the surviving row of `tNorm`. -/
theorem C3_normalize_invariant_witness :
    rKept.salesOrderNo.isSome = true ∧
      cellContainsSummary rKept.salesOrderNo = false :=
  C3_normalize_invariant tNorm rKept (by decide)

/-- C8: the critical-delay warning is raised iff the number of delayed
shipments is strictly greater than 5; a count of exactly 5 does not
raise it. -/
theorem C8_alert_iff_gt_5 (threshold : Int) (t : List Record) :
    (criticalAlert threshold t = true ↔
      5 < (delayed_shipments threshold t).length) ∧
    ((delayed_shipments threshold t).length = 5 →
      criticalAlert threshold t = false) := by
  unfold criticalAlert
  constructor
  · exact decide_eq_true_iff
  · intro h
    simp [h]

/-- Witness for C8: six 20-day-early rows at threshold 10 raise the
alert; the same table truncated to five rows does not. -/
theorem C8_alert_iff_gt_5_witness :
    criticalAlert 10 tSix = true ∧ criticalAlert 10 tFive = false :=
  ⟨(C8_alert_iff_gt_5 10 tSix).1.mpr (by decide),
   (C8_alert_iff_gt_5 10 tFive).2 (by decide)⟩

/-- C2: for any threshold in 0–90, a record is in the delayed-shipments
subset iff it is in the table, both its estimated-delivery and
actual-delivery dates are parseable, and (estimated − actual) in whole
days strictly exceeds the threshold. -/
theorem C2_delayed_membership (threshold : Int) (_h0 : 0 ≤ threshold)
    (_h90 : threshold ≤ 90) (t : List Record) (r : Record) :
    r ∈ delayed_shipments threshold t ↔
      r ∈ t ∧ ∃ e d : Int, r.estimatedDeliveryDate = some e ∧
        r.deliveryDate = some d ∧ threshold < e - d := by
  unfold delayed_shipments
  rw [List.mem_filter]
  refine and_congr_right (fun _ => ?_)
  unfold isDelayed
  cases hE : r.estimatedDeliveryDate <;> cases hD : r.deliveryDate <;>
    simp [hE, hD]

/-- Witness for C2 at threshold 10: the 15-day-difference row is in the
delayed subset, the 5-day-difference row is not. -/
theorem C2_delayed_membership_witness :
    rDelay15 ∈ delayed_shipments 10 tDelay ∧
      rDelay5 ∉ delayed_shipments 10 tDelay :=
  ⟨(C2_delayed_membership 10 (by decide) (by decide) tDelay rDelay15).mpr
      ⟨by decide, 15, 0, rfl, rfl, by decide⟩,
    by decide⟩

/-- C6: when a required column is absent from the uploaded table's
(trimmed) schema, the Schema Validator's output contains it — every
missing name is reported together in the error value — and the pipeline
halts with that error before the Normalizer, Filter Engine or Metrics
Aggregator run. -/
theorem C6_schema_halt (cols : List String) (spec : FilterSpec)
    (threshold : Int) (t : List Record) (c : String)
    (hc : c ∈ required_columns)
    (hmiss : c ∉ cols.map strip) :
    c ∈ missing_columns (cols.map strip) ∧
    pipeline cols spec threshold t =
      Except.error (missing_columns (cols.map strip)) := by
  have hcontains : (cols.map strip).contains c = false := by
    rw [Bool.eq_false_iff]
    intro hcon
    exact hmiss (List.elem_iff.mp hcon)
  have hmem : c ∈ missing_columns (cols.map strip) := by
    unfold missing_columns
    rw [List.mem_filter]
    exact ⟨hc, by rw [hcontains]; rfl⟩
  have hie : (missing_columns (cols.map strip)).isEmpty = false := by
    rcases h : missing_columns (cols.map strip) with _ | ⟨a, l⟩
    · rw [h] at hmem; cases hmem
    · rfl
  refine ⟨hmem, ?_⟩
  unfold pipeline
  simp only [hie]
  rfl

/-- Witness for C6: a file exposing only `Sales Order No` is rejected
with `Quantity` among the reported missing columns. -/
theorem C6_schema_halt_witness :
    "Quantity" ∈ missing_columns (["Sales Order No"].map strip) ∧
    pipeline ["Sales Order No"] ⟨[], [], []⟩ 30 [] =
      Except.error (missing_columns (["Sales Order No"].map strip)) :=
  C6_schema_halt ["Sales Order No"] ⟨[], [], []⟩ 30 [] "Quantity"
    (by decide) (by decide)

/-- C7: every reconciliation row's difference equals its summed ordered
quantity minus its summed received quantity (the per-PO group sums), and
a row appears in the mismatches view iff its difference is nonzero. -/
theorem C7_reconciliation (t : List Record) :
    (∀ row ∈ receipts_vs_quantity t,
        row.difference = row.total_quantity - row.total_received ∧
        row.total_quantity = total_quantity t row.poNumber ∧
        row.total_received = total_received t row.poNumber) ∧
    (∀ row : ReconRow, row ∈ mismatches t ↔
        row ∈ receipts_vs_quantity t ∧ row.difference ≠ 0) := by
  constructor
  · intro row hrow
    unfold receipts_vs_quantity at hrow
    rw [List.mem_map] at hrow
    obtain ⟨po, _, rfl⟩ := hrow
    exact ⟨rfl, rfl, rfl⟩
  · intro row
    unfold mismatches
    rw [List.mem_filter]
    simp

/-- Witness for C7: PO `"X1"` with lines (10, received 10) and
(5, received 3) yields the row (15, 13, 2), which is a mismatch. -/
theorem C7_reconciliation_witness :
    receipts_vs_quantity tPO = [⟨"X1", 15, 13, 2⟩] ∧
      (⟨"X1", 15, 13, 2⟩ : ReconRow) ∈ mismatches tPO :=
  ⟨by decide,
    ((C7_reconciliation tPO).2 ⟨"X1", 15, 13, 2⟩).mpr ⟨by decide, by decide⟩⟩

/-- C9: when the quantity or received-quantity column is absent, the
reconciliation sub-computation reports its dedicated error instead of
aggregating, while delay detection, the critical alert, supplier
grouping, both top-5 rankings and the summary metrics are exactly what
they are on the same table without the guard's input. -/
theorem C9_recon_guard (cols : List String) (threshold : Int)
    (t : List Record)
    (h : "Quantity" ∉ cols ∨ "Received Quantity" ∉ cols) :
    (metricsAggregator cols threshold t).recon =
      Except.error
        "The required columns for Receipts vs. Invoice Comparison are missing." ∧
    (metricsAggregator cols threshold t).delayed =
      delayed_shipments threshold t ∧
    (metricsAggregator cols threshold t).alert = criticalAlert threshold t ∧
    (metricsAggregator cols threshold t).supplierKeys =
      groupKeys Record.supplier t ∧
    (metricsAggregator cols threshold t).topSuppliers = top_suppliers t ∧
    (metricsAggregator cols threshold t).topCustomers = top_customers t ∧
    (metricsAggregator cols threshold t).salesOrderCount =
      totalSalesOrders t ∧
    (metricsAggregator cols threshold t).poAmountSum = totalPOAmount t ∧
    (metricsAggregator cols threshold t).lateCount = delayed_count t := by
  have hall :
      ¬ (["PO Number", "Quantity", "Received Quantity"].all
          (fun c => cols.contains c) = true) := by
    rw [List.all_eq_true]
    intro hall
    rcases h with h | h
    · exact h (List.elem_iff.mp (hall "Quantity" (by decide)))
    · exact h (List.elem_iff.mp (hall "Received Quantity" (by decide)))
  refine ⟨?_, rfl, rfl, rfl, rfl, rfl, rfl, rfl, rfl⟩
  show reconciliation cols t = _
  unfold reconciliation
  rw [if_neg hall]

/-- Witness for C9: with only `PO Number` and `Received Quantity`
present, the reconciliation result is the dedicated error. -/
theorem C9_recon_guard_witness :
    (metricsAggregator ["PO Number", "Received Quantity"] 30 tPO).recon =
      Except.error
        "The required columns for Receipts vs. Invoice Comparison are missing." :=
  (C9_recon_guard ["PO Number", "Received Quantity"] 30 tPO
      (Or.inl (by decide))).1

/-- C1 counterexample: the claim "the on-time rate is always in [0, 100]
and is exactly 0 when total_orders = 0" fails on the code. Two rows of
supplier `"S"` share one PO and are both on time, so
`on_time_deliveries = 2` but `total_orders = 1` (distinct POs), giving a
rate of 200%; and a group whose only PO number is null has
`total_orders = 0` and a non-numeric rate (pandas `NaN`/`inf`,
embedded `none`), not 0. -/
theorem C1_counterexample :
    (onTimeRate tRepeatPO "S" = some 200 ∧ ¬ (200 : ℚ) ≤ 100) ∧
    (total_orders tNullPO "S" = 0 ∧ onTimeRate tNullPO "S" = none) := by
  have h1 : total_orders tRepeatPO "S" = 1 := by decide
  have h2 : on_time_deliveries tRepeatPO "S" = 2 := by decide
  refine ⟨⟨?_, by norm_num⟩, by decide, ?_⟩
  · unfold onTimeRate
    rw [h1, h2]
    norm_num
  · have h0 : total_orders tNullPO "S" = 0 := by decide
    unfold onTimeRate
    rw [h0]
    rfl

/-- C1 (amended): the on-time rate equals
`on_time_deliveries / total_orders × 100` (exact rational) whenever
`total_orders ≠ 0`, and is then nonnegative (it may exceed 100, since
on-time deliveries are counted per record while total orders count
distinct PO numbers); when `total_orders = 0` the division produces a
non-numeric value (`NaN`/`inf`), not 0 — and no division fault. -/
theorem C1_rate_amended (t : List Record) (s : String) :
    (total_orders t s = 0 → onTimeRate t s = none) ∧
    (total_orders t s ≠ 0 →
      onTimeRate t s =
        some ((on_time_deliveries t s : ℚ) / (total_orders t s : ℚ) * 100) ∧
      ∀ q : ℚ, onTimeRate t s = some q → 0 ≤ q) := by
  constructor
  · intro h
    unfold onTimeRate
    rw [if_pos h]
  · intro h
    have hval : onTimeRate t s =
        some ((on_time_deliveries t s : ℚ) / (total_orders t s : ℚ) * 100) := by
      unfold onTimeRate
      rw [if_neg h]
    refine ⟨hval, ?_⟩
    intro q hq
    rw [hval] at hq
    cases Option.some.inj hq
    positivity

/-- Witness for C1 (amended): the repeated-PO table has a defined
(200%) rate computed by the stated formula; the null-PO table has an
undefined rate. -/
theorem C1_rate_amended_witness :
    onTimeRate tRepeatPO "S" =
      some ((on_time_deliveries tRepeatPO "S" : ℚ) /
        (total_orders tRepeatPO "S" : ℚ) * 100) ∧
    onTimeRate tNullPO "S" = none :=
  ⟨((C1_rate_amended tRepeatPO "S").2 (by decide)).1,
    (C1_rate_amended tNullPO "S").1 (by decide)⟩

end SCM
